import Mathlib

/-!
Verification of the format classifier in `src/streamlit_app.py`.

The classifier receives a cleaned rectangular table (first column candidate
timestamps, remaining columns candidate measurements) and returns a
(label, detail) pair of strings.  This file embeds the core detector
`detect_format` and its helpers as executable Lean definitions and proves
the behavioural properties stated about them.

Modelling conventions:
* machine timestamps are records of (year, month, day, hour, minute); the
  chronological order pandas uses on `Timestamp` values is embedded through
  a strictly monotone numeric key;
* `pd.to_datetime(..., errors="coerce")` on column 0 is modelled by giving
  each cell as `Option DateTime` (`none` = the cell does not parse) and
  requiring every cell to parse, exactly as `_safe_to_datetime` does with
  its `isna().any()` check;
* `pd.api.types.is_numeric_dtype` is a per-column dtype predicate, modelled
  as one `Bool` per measurement column;
* the `dropna`/`reset_index` normalisation on line 79 is the identity on
  inputs satisfying the caller contract of spec section 4.1 (fully empty
  rows and columns already removed), which this embedding takes as given.
-/

/-- A parsed timestamp at minute precision, as produced for the values this
program handles (the detector inspects year, hour and minute fields and
compares timestamps chronologically). -/
structure DateTime where
  year : Nat
  month : Nat
  day : Nat
  hour : Nat
  minute : Nat
  deriving DecidableEq, Repr

/-- Monotone numeric encoding of a timestamp.  On calendar-valid fields
(month 1..12, day 1..31, hour 0..23, minute 0..59) the encoding is strictly
monotone in chronological order, so comparing keys embeds the chronological
comparison of pandas Timestamp values used by the window masks. -/
def DateTime.key (d : DateTime) : Nat :=
  (((d.year * 13 + d.month) * 32 + d.day) * 24 + d.hour) * 60 + d.minute

/-- calendar.isleap. -/
def isleap (y : Nat) : Bool :=
  (y % 4 == 0 && y % 100 != 0) || y % 400 == 0

/-- Line 28. -/
def HOUR_ROWS_NONLEAP : Nat := 8760
/-- Line 29. -/
def HOUR_ROWS_LEAP : Nat := 8784
/-- Line 30. -/
def Q15_ROWS_NONLEAP : Nat := 35040
/-- Line 31. -/
def Q15_ROWS_LEAP : Nat := 35136

/-- Lines 33-38: the set of acceptable hourly row counts. -/
def ACCEPTABLE_HOURLY : List Nat :=
  [HOUR_ROWS_NONLEAP, HOUR_ROWS_NONLEAP - 1, HOUR_ROWS_LEAP, HOUR_ROWS_LEAP - 1]

/-- Lines 39-44: the set of acceptable 15-minute row counts. -/
def ACCEPTABLE_15M : List Nat :=
  [Q15_ROWS_NONLEAP, Q15_ROWS_NONLEAP - 1, Q15_ROWS_LEAP, Q15_ROWS_LEAP - 1]

/-- Lines 57-60, `_mask_hourly`: membership of a timestamp in the hourly
window `[datetime(y,1,1,1), datetime(y+1,1,1,1))`. -/
def mask_hourly (d : DateTime) (y : Nat) : Bool :=
  decide ((DateTime.mk y 1 1 1 0).key ≤ d.key) &&
    decide (d.key < (DateTime.mk (y + 1) 1 1 1 0).key)

/-- Lines 63-66, `_mask_15m`: membership of a timestamp in the 15-minute
window `[datetime(y,1,1,0,15), datetime(y+1,1,1,0,15))`. -/
def mask_15m (d : DateTime) (y : Nat) : Bool :=
  decide ((DateTime.mk y 1 1 0 15).key ≤ d.key) &&
    decide (d.key < (DateTime.mk (y + 1) 1 1 0 15).key)

/-- Lines 69-71, `_explain`. -/
def explain (found : Nat) (expected : List String) : String :=
  "Found **" ++ toString found ++ "**, expected **" ++
    String.intercalate ", " expected ++ "**."

/-- A cleaned rectangular table as the classifier sees it: column 0 given
through the outcome of parsing each cell, and one dtype flag per
measurement column. -/
structure Table where
  col0 : List (Option DateTime)
  numericCols : List Bool
  deriving DecidableEq, Repr

/-- Lines 50-54, `_safe_to_datetime`: the whole column parses exactly when
every cell parses; a single failing cell poisons the column. -/
def parseCol0 : List (Option DateTime) → Option (List DateTime)
  | [] => some []
  | none :: _ => none
  | some d :: rest => (parseCol0 rest).map (fun l => d :: l)

/-- Line 85: `(dt.dt.hour.gt(0) | dt.dt.minute.gt(0)).any()`. -/
def hasTimes (dt : List DateTime) : Bool :=
  dt.any fun d => decide (0 < d.hour) || decide (0 < d.minute)

/-- Line 91: `int(_mask_hourly(dt, y).sum())`. -/
def rowsHourly (dt : List DateTime) (y : Nat) : Nat :=
  dt.countP fun d => mask_hourly d y

/-- Line 102: `int(_mask_15m(dt, y).sum())`. -/
def rows15m (dt : List DateTime) (y : Nat) : Nat :=
  dt.countP fun d => mask_15m d y

/-- Line 137: `int((dt.dt.year == y).sum())`. -/
def rowsYear (dt : List DateTime) (y : Nat) : Nat :=
  dt.countP fun d => d.year == y

/-- Building the value set `{d.year for d in dt}` as a duplicate-free list
(the retained representative is irrelevant: only the set matters, as it is
sorted next). -/
def dedupYears : List Nat → List Nat
  | [] => []
  | y :: ys => if y ∈ ys then dedupYears ys else y :: dedupYears ys

/-- Insertion into an ascending list, the building block of `sorted`. -/
def insertAsc (x : Nat) : List Nat → List Nat
  | [] => [x]
  | y :: ys => if x ≤ y then x :: y :: ys else y :: insertAsc x ys

/-- Ascending insertion sort, modelling the builtin `sorted`. -/
def sortAsc (l : List Nat) : List Nat := l.foldr insertAsc []

/-- Lines 89 and 136: `sorted({d.year for d in dt})`. -/
def sortedYears (dt : List DateTime) : List Nat :=
  sortAsc (dedupYears (dt.map DateTime.year))

/-- Line 113: the per-year summary built when no 1-D window matches. -/
def yearSummary (dt : List DateTime) (y : Nat) : String :=
  toString y ++ ": " ++ toString (rowsHourly dt y) ++ "‑hour, " ++
    toString (rows15m dt y) ++ "‑15‑min rows"

/-- Lines 111-119: the failure result of the 1-D year loop. -/
def noFullYear1D (dt : List DateTime) : String × String :=
  ("Error – no full 1‑D year",
    "Row counts → " ++
      String.intercalate "; " ((sortedYears dt).map (yearSummary dt)))

/-- Lines 89-119: the 1-D year loop, scanning the sorted distinct years and
returning at the first acceptable window (hourly tried before 15-minute). -/
def scan1D (dt : List DateTime) : List Nat → String × String
  | [] => noFullYear1D dt
  | y :: ys =>
    let rows_h := rowsHourly dt y
    let exp_h_full := if isleap y then HOUR_ROWS_LEAP else HOUR_ROWS_NONLEAP
    if rows_h ∈ ACCEPTABLE_HOURLY then
      let miss := if rows_h = exp_h_full - 1 then " (final 00:00 missing)" else ""
      ("1D hourly",
        toString rows_h ++ " rows for " ++ toString y ++ miss ++
          ". Expected " ++ toString exp_h_full ++ " rows starting 01:00.")
    else
      let rows_q := rows15m dt y
      let exp_q_full := if isleap y then Q15_ROWS_LEAP else Q15_ROWS_NONLEAP
      if rows_q ∈ ACCEPTABLE_15M then
        let miss := if rows_q = exp_q_full - 1 then " (final 00:00 missing)" else ""
        ("1D 15 minutes",
          toString rows_q ++ " rows for " ++ toString y ++ miss ++
            ". Expected " ++ toString exp_q_full ++ " rows starting 00:15.")
      else scan1D dt ys

/-- Lines 128-129: number of measurement columns carrying a numeric dtype. -/
def n_num (t : Table) : Nat := t.numericCols.countP id

/-- Lines 136-149: the 2-D year loop, accepting the first year holding at
least 365 rows. -/
def scan2D (dt : List DateTime) (gran : String) (expected_cols num : Nat) :
    List Nat → String × String
  | [] =>
    ("Error – no full 2‑D year",
      "Sheet has dates but none of the years contains ≥365 rows.")
  | y :: ys =>
    let rows := rowsYear dt y
    if 365 ≤ rows then
      let extra := num - expected_cols
      let extra_note :=
        if extra ≠ 0 then " (+" ++ toString extra ++ " extra cols ignored)" else ""
      ("2D " ++ gran,
        toString rows ++ " date‑rows for " ++ toString y ++ ". Using first " ++
          toString expected_cols ++ " of " ++ toString num ++
          " numeric columns" ++ extra_note ++ ".")
    else scan2D dt gran expected_cols num ys

/-- Lines 121-149: the 2-D path. -/
def detect2D (dt : List DateTime) (t : Table) : String × String :=
  if dt.any (fun d => d.hour != 0) || dt.any (fun d => d.minute != 0) then
    ("Error – first column contains times",
      "2‑D diagrams must have *dates only* (midnight) in the first column.")
  else if n_num t < 24 then
    ("Error – too few interval columns", explain (n_num t) ["≥24"])
  else
    let gran := if n_num t < 96 then "hourly" else "15 minutes"
    let expected_cols := if gran == "hourly" then 24 else 96
    scan2D dt gran expected_cols (n_num t) (sortedYears dt)

/-- The branch taken once column 0 has parsed (lines 85-149). -/
def detectParsed (dt : List DateTime) (t : Table) : String × String :=
  if hasTimes dt then scan1D dt (sortedYears dt) else detect2D dt t

/-- Lines 76-149, `detect_format`: the core detector. -/
def detect_format (t : Table) : String × String :=
  match parseCol0 t.col0 with
  | none =>
    ("Error – date parsing",
      "Failed to parse valid dates/timestamps in the first column.")
  | some dt => detectParsed dt t

/-- The four success labels the detector can emit. -/
def successLabels : List String :=
  ["1D hourly", "1D 15 minutes", "2D hourly", "2D 15 minutes"]

/-- The five error labels the detector can emit; each begins with "Error",
the marker the UI layer keys on (line 210 of the source). -/
def errorLabels : List String :=
  ["Error – date parsing", "Error – no full 1‑D year",
    "Error – first column contains times",
    "Error – too few interval columns", "Error – no full 2‑D year"]

/-- Number of days in a month, used only to build concrete test tables of
consecutive calendar days. -/
def monthLength (y m : Nat) : Nat :=
  if m = 2 then (if isleap y then 29 else 28)
  else if m = 4 ∨ m = 6 ∨ m = 9 ∨ m = 11 then 30 else 31

/-- The calendar day following a given midnight date. -/
def nextDay (d : DateTime) : DateTime :=
  if d.day < monthLength d.year d.month then ⟨d.year, d.month, d.day + 1, d.hour, d.minute⟩
  else if d.month < 12 then ⟨d.year, d.month + 1, 1, d.hour, d.minute⟩
  else ⟨d.year + 1, 1, 1, d.hour, d.minute⟩

/-- `n` consecutive calendar days starting at a given date. -/
def daysFrom (d : DateTime) : Nat → List DateTime
  | 0 => []
  | n + 1 => d :: daysFrom (nextDay d) n

/-! ### Concrete test tables

Concrete inputs used to instantiate and to refute the claims.  Row lists are
built with `List.replicate` and `daysFrom`; the detector only ever counts
rows inside windows, so replicated timestamps exercise the same code paths
as fully enumerated ones. -/

/-- 8784 rows inside the hourly window of the non-leap year 2023. -/
def dtC2 : List DateTime := List.replicate 8784 ⟨2023, 1, 1, 1, 0⟩

/-- Table around `dtC2`. -/
def tC2 : Table := ⟨dtC2.map some, [true]⟩

/-- 5 rows in 2023 (no acceptable count) followed by 8784 rows inside the
hourly window of the leap year 2024. -/
def dtC3 : List DateTime :=
  List.replicate 5 ⟨2023, 6, 1, 12, 0⟩ ++ List.replicate 8784 ⟨2024, 6, 1, 12, 0⟩

/-- Table around `dtC3`. -/
def tC3 : Table := ⟨dtC3.map some, [true]⟩

/-- 35136 rows inside the 15-minute window of the leap year 2024. -/
def dtC1 : List DateTime := List.replicate 35136 ⟨2024, 1, 1, 0, 15⟩

/-- Table around `dtC1`. -/
def tC1 : Table := ⟨dtC1.map some, [true]⟩

/-- 35136 rows of 2024 inside its 15-minute window but outside no hourly
acceptance (the hourly window count 35136 is not an acceptable hourly
count). -/
def dtC1w : List DateTime := List.replicate 35136 ⟨2024, 2, 1, 0, 15⟩

/-- Table around `dtC1w`. -/
def tC1w : Table := ⟨dtC1w.map some, [true]⟩

/-- A table whose first column holds one unparsable cell. -/
def tC4 : Table := ⟨[none, some ⟨2023, 1, 1, 1, 0⟩], [true]⟩

/-- The 365 consecutive midnight days of 2023. -/
def dtC5 : List DateTime := daysFrom ⟨2023, 1, 1, 0, 0⟩ 365

/-- 2-D table: the 365 days of 2023 with 96 numeric columns. -/
def tC5 : Table := ⟨dtC5.map some, List.replicate 96 true⟩

/-- The 366 consecutive midnight days of the leap year 2024. -/
def dtC5w : List DateTime := daysFrom ⟨2024, 1, 1, 0, 0⟩ 366

/-- 2-D table: the 366 days of 2024 with 24 numeric columns. -/
def tC5w : Table := ⟨dtC5w.map some, List.replicate 24 true⟩

/-- 8759 rows inside the hourly window of the non-leap year 2023: a full
hourly year with the final midnight row omitted. -/
def dtC6 : List DateTime := List.replicate 8759 ⟨2023, 3, 1, 10, 0⟩

/-- Table around `dtC6`. -/
def tC6 : Table := ⟨dtC6.map some, [true]⟩

/-- A midnight-dated table with only 23 numeric measurement columns. -/
def tC7 : Table := ⟨[some ⟨2023, 5, 4, 0, 0⟩], List.replicate 23 true⟩

/-- A midnight-dated table with 24 numeric measurement columns. -/
def tC8 : Table := ⟨[some ⟨2023, 1, 1, 0, 0⟩], List.replicate 24 true⟩

/-- A small parsable table. -/
def tC9 : Table := ⟨[some ⟨2023, 1, 2, 0, 0⟩], [true]⟩

/-- Another small parsable table. -/
def tC10 : Table := ⟨[some ⟨2022, 7, 1, 6, 0⟩], [true]⟩

set_option maxRecDepth 10000

/-! ### Helper lemmas

Small structural lemmas used to evaluate the detector on concrete tables
(built with `List.replicate` and `daysFrom`) and to reason about the year
scan.  None of them is tied to a single claim. -/

theorem countP_replicate {α : Type} (p : α → Bool) (n : Nat) (a : α) :
    (List.replicate n a).countP p = if p a then n else 0 := by
  induction n with
  | zero => simp
  | succ n ih => cases h : p a <;>
      simp [List.replicate_succ, List.countP_cons, ih, h, Nat.add_comm]

theorem parseCol0_map_some (l : List DateTime) :
    parseCol0 (l.map some) = some l := by
  induction l with
  | nil => rfl
  | cons d rest ih => simp [parseCol0, ih]

theorem parseCol0_none_of_mem {col : List (Option DateTime)}
    (h : (none : Option DateTime) ∈ col) : parseCol0 col = none := by
  induction col with
  | nil => cases h
  | cons c rest ih =>
    cases c with
    | none => rfl
    | some d =>
      have h' : (none : Option DateTime) ∈ rest := by
        rcases List.mem_cons.mp h with hc | hc
        · simp at hc
        · exact hc
      simp [parseCol0, ih h']

theorem any_replicate_succ {α : Type} (p : α → Bool) (n : Nat) (a : α) :
    (List.replicate (n + 1) a).any p = p a := by
  induction n with
  | zero => simp
  | succ n ih => rw [List.replicate_succ, List.any_cons, ih, Bool.or_self]

theorem dedupYears_mem (a : Nat) (l : List Nat) :
    a ∈ dedupYears l ↔ a ∈ l := by
  induction l with
  | nil => simp [dedupYears]
  | cons y ys ih =>
    by_cases h : y ∈ ys
    · simp only [dedupYears, if_pos h, ih, List.mem_cons]
      constructor
      · exact Or.inr
      · rintro (rfl | hm)
        · exact h
        · exact hm
    · simp [dedupYears, if_neg h, ih]

theorem dedupYears_nodup (l : List Nat) : (dedupYears l).Nodup := by
  induction l with
  | nil => simp [dedupYears]
  | cons y ys ih =>
    by_cases h : y ∈ ys
    · simpa [dedupYears, if_pos h] using ih
    · simp only [dedupYears, if_neg h, List.nodup_cons]
      exact ⟨fun hc => h ((dedupYears_mem y ys).mp hc), ih⟩

theorem dedupYears_replicate_succ (n a : Nat) :
    dedupYears (List.replicate (n + 1) a) = [a] := by
  induction n with
  | zero => simp [dedupYears]
  | succ n ih =>
    have hmem : a ∈ List.replicate (n + 1) a := by
      simp [List.mem_replicate]
    simpa [List.replicate_succ, dedupYears, hmem] using ih

theorem dedupYears_replicate_append (n a : Nat) (l : List Nat) (h : a ∉ l) :
    dedupYears (List.replicate (n + 1) a ++ l) = a :: dedupYears l := by
  induction n with
  | zero => simp [dedupYears, h]
  | succ n ih =>
    have hmem : a ∈ List.replicate (n + 1) a ++ l := by
      simp [List.mem_replicate]
    simpa [List.replicate_succ, dedupYears, hmem] using ih

theorem mem_insertAsc (x a : Nat) (l : List Nat) :
    a ∈ insertAsc x l ↔ a = x ∨ a ∈ l := by
  induction l with
  | nil => simp [insertAsc]
  | cons y ys ih =>
    by_cases h : x ≤ y
    · simp [insertAsc, if_pos h]
    · simp only [insertAsc, if_neg h, List.mem_cons, ih]
      tauto

theorem pairwise_le_insertAsc (x : Nat) (l : List Nat)
    (h : l.Pairwise (· ≤ ·)) : (insertAsc x l).Pairwise (· ≤ ·) := by
  induction l with
  | nil => simp [insertAsc]
  | cons y ys ih =>
    rcases List.pairwise_cons.mp h with ⟨hy, hys⟩
    by_cases hxy : x ≤ y
    · rw [insertAsc, if_pos hxy]
      refine List.pairwise_cons.mpr ⟨?_, h⟩
      intro b hb
      rcases List.mem_cons.mp hb with rfl | hb
      · exact hxy
      · exact Nat.le_trans hxy (hy b hb)
    · rw [insertAsc, if_neg hxy]
      refine List.pairwise_cons.mpr ⟨?_, ih hys⟩
      intro b hb
      rcases (mem_insertAsc x b ys).mp hb with rfl | hb
      · exact Nat.le_of_lt (Nat.lt_of_not_le hxy)
      · exact hy b hb

theorem nodup_insertAsc (x : Nat) (l : List Nat) (hx : x ∉ l)
    (h : l.Nodup) : (insertAsc x l).Nodup := by
  induction l with
  | nil => simp [insertAsc]
  | cons y ys ih =>
    rcases List.nodup_cons.mp h with ⟨hy, hys⟩
    have hxy : x ≠ y := fun hc => hx (hc ▸ List.mem_cons_self y ys)
    have hxys : x ∉ ys := fun hc => hx (List.mem_cons_of_mem y hc)
    by_cases hle : x ≤ y
    · rw [insertAsc, if_pos hle]
      refine List.nodup_cons.mpr ⟨?_, h⟩
      intro hc
      rcases List.mem_cons.mp hc with hc | hc
      · exact hxy hc
      · exact hxys hc
    · rw [insertAsc, if_neg hle]
      refine List.nodup_cons.mpr ⟨?_, ih hxys hys⟩
      intro hc
      rcases (mem_insertAsc x y ys).mp hc with hc | hc
      · exact hxy hc.symm
      · exact hy hc

theorem mem_sortAsc (a : Nat) (l : List Nat) : a ∈ sortAsc l ↔ a ∈ l := by
  induction l with
  | nil => simp [sortAsc]
  | cons y ys ih =>
    simp only [sortAsc, List.foldr_cons] at ih ⊢
    rw [mem_insertAsc, ih, List.mem_cons]

theorem pairwise_le_sortAsc (l : List Nat) :
    (sortAsc l).Pairwise (· ≤ ·) := by
  induction l with
  | nil => simp [sortAsc]
  | cons y ys ih =>
    exact pairwise_le_insertAsc y _ ih

theorem nodup_sortAsc (l : List Nat) (h : l.Nodup) : (sortAsc l).Nodup := by
  induction l with
  | nil => simp [sortAsc]
  | cons y ys ih =>
    rcases List.nodup_cons.mp h with ⟨hy, hys⟩
    refine nodup_insertAsc y _ ?_ (ih hys)
    intro hc
    exact hy ((mem_sortAsc y ys).mp hc)

theorem sortedYears_pairwise_lt (dt : List DateTime) :
    (sortedYears dt).Pairwise (· < ·) := by
  have hle := pairwise_le_sortAsc (dedupYears (dt.map DateTime.year))
  have hnd := nodup_sortAsc _ (dedupYears_nodup (dt.map DateTime.year))
  have := List.Pairwise.and hle hnd
  exact this.imp fun h => Nat.lt_of_le_of_ne h.1 h.2

theorem detect_format_of_parse {t : Table} {dt : List DateTime}
    (h : parseCol0 t.col0 = some dt) :
    detect_format t = detectParsed dt t := by
  unfold detect_format
  rw [h]

theorem detect_format_of_parse_fail {t : Table}
    (h : parseCol0 t.col0 = none) :
    detect_format t =
      ("Error\u00A0– date parsing",
        "Failed to parse valid dates/timestamps in the first column.") := by
  simp only [detect_format, h]

theorem scan1D_cons_hourly (dt : List DateTime) (y : Nat) (ys : List Nat)
    (h : rowsHourly dt y ∈ ACCEPTABLE_HOURLY) :
    scan1D dt (y :: ys) =
      ("1D hourly",
        toString (rowsHourly dt y) ++ " rows for " ++ toString y ++
          (if rowsHourly dt y = (if isleap y then HOUR_ROWS_LEAP else HOUR_ROWS_NONLEAP) - 1
            then " (final 00:00 missing)" else "") ++
          ". Expected " ++
          toString (if isleap y then HOUR_ROWS_LEAP else HOUR_ROWS_NONLEAP) ++
          " rows starting 01:00.") := by
  simp only [scan1D]
  rw [if_pos h]

theorem scan1D_cons_15m (dt : List DateTime) (y : Nat) (ys : List Nat)
    (hh : rowsHourly dt y ∉ ACCEPTABLE_HOURLY)
    (hq : rows15m dt y ∈ ACCEPTABLE_15M) :
    scan1D dt (y :: ys) =
      ("1D 15 minutes",
        toString (rows15m dt y) ++ " rows for " ++ toString y ++
          (if rows15m dt y = (if isleap y then Q15_ROWS_LEAP else Q15_ROWS_NONLEAP) - 1
            then " (final 00:00 missing)" else "") ++
          ". Expected " ++
          toString (if isleap y then Q15_ROWS_LEAP else Q15_ROWS_NONLEAP) ++
          " rows starting 00:15.") := by
  simp only [scan1D]
  rw [if_neg hh, if_pos hq]

theorem scan1D_cons_skip (dt : List DateTime) (y : Nat) (ys : List Nat)
    (hh : rowsHourly dt y ∉ ACCEPTABLE_HOURLY)
    (hq : rows15m dt y ∉ ACCEPTABLE_15M) :
    scan1D dt (y :: ys) = scan1D dt ys := by
  simp only [scan1D]
  rw [if_neg hh, if_neg hq]

theorem scan2D_cons_accept (dt : List DateTime) (gran : String)
    (expected_cols num : Nat) (y : Nat) (ys : List Nat)
    (h : 365 ≤ rowsYear dt y) :
    scan2D dt gran expected_cols num (y :: ys) =
      ("2D " ++ gran,
        toString (rowsYear dt y) ++ " date‑rows for " ++ toString y ++
          ". Using first " ++ toString expected_cols ++ " of " ++ toString num ++
          " numeric columns" ++
          (if num - expected_cols ≠ 0
            then " (+" ++ toString (num - expected_cols) ++ " extra cols ignored)"
            else "") ++ ".") := by
  simp only [scan2D]
  rw [if_pos h]

theorem scan2D_cons_skip (dt : List DateTime) (gran : String)
    (expected_cols num : Nat) (y : Nat) (ys : List Nat)
    (h : ¬ 365 ≤ rowsYear dt y) :
    scan2D dt gran expected_cols num (y :: ys) =
      scan2D dt gran expected_cols num ys := by
  simp only [scan2D]
  rw [if_neg h]

theorem midnight_check_false (dt : List DateTime) (h : hasTimes dt = false) :
    (dt.any (fun d => d.hour != 0) || dt.any (fun d => d.minute != 0)) = false := by
  have hall := List.any_eq_false.mp h
  have hzero : ∀ d ∈ dt, d.hour = 0 ∧ d.minute = 0 := by
    intro d hd
    have hq := hall d hd
    simp only [Bool.or_eq_true, decide_eq_true_eq] at hq
    push_neg at hq
    omega
  rw [Bool.or_eq_false_iff]
  refine ⟨List.any_eq_false.mpr ?_, List.any_eq_false.mpr ?_⟩ <;>
    intro d hd <;> simp [(hzero d hd).1, (hzero d hd).2]

theorem detectParsed_1D {dt : List DateTime} (t : Table)
    (h : hasTimes dt = true) :
    detectParsed dt t = scan1D dt (sortedYears dt) := by
  unfold detectParsed
  rw [h]
  exact rfl

theorem detectParsed_2D {dt : List DateTime} (t : Table)
    (h : hasTimes dt = false) :
    detectParsed dt t = detect2D dt t := by
  unfold detectParsed
  rw [h]
  exact rfl

theorem detect2D_midnight {dt : List DateTime} (t : Table)
    (h : hasTimes dt = false) :
    detect2D dt t =
      (if n_num t < 24 then
        ("Error\u00A0– too few interval columns", explain (n_num t) ["≥24"])
      else
        scan2D dt (if n_num t < 96 then "hourly" else "15 minutes")
          (if (if n_num t < 96 then "hourly" else "15 minutes") == "hourly" then 24 else 96)
          (n_num t) (sortedYears dt)) := by
  simp only [detect2D, midnight_check_false dt h, Bool.false_eq_true, if_false]

theorem scan1D_fst_mem (dt : List DateTime) (ys : List Nat) :
    (scan1D dt ys).1 = "1D hourly" ∨ (scan1D dt ys).1 = "1D 15 minutes" ∨
      (scan1D dt ys).1 = "Error – no full 1‑D year" := by
  induction ys with
  | nil => right; right; rfl
  | cons y ys ih =>
    by_cases hh : rowsHourly dt y ∈ ACCEPTABLE_HOURLY
    · rw [scan1D_cons_hourly dt y ys hh]
      left; rfl
    · by_cases hq : rows15m dt y ∈ ACCEPTABLE_15M
      · rw [scan1D_cons_15m dt y ys hh hq]
        right; left; rfl
      · rw [scan1D_cons_skip dt y ys hh hq]
        exact ih

theorem scan2D_fst (dt : List DateTime) (gran : String)
    (expected_cols num : Nat) (ys : List Nat) :
    (scan2D dt gran expected_cols num ys).1 = "2D " ++ gran ∨
      (scan2D dt gran expected_cols num ys).1 = "Error – no full 2‑D year" := by
  induction ys with
  | nil => right; rfl
  | cons y ys ih =>
    by_cases h : 365 ≤ rowsYear dt y
    · rw [scan2D_cons_accept dt gran expected_cols num y ys h]
      left; rfl
    · rw [scan2D_cons_skip dt gran expected_cols num y ys h]
      exact ih

theorem detect2D_fst_mem (dt : List DateTime) (t : Table)
    (h : hasTimes dt = false) :
    (detect2D dt t).1 ∈
      ["2D hourly", "2D 15 minutes", "Error – too few interval columns",
        "Error – no full 2‑D year"] := by
  rw [detect2D_midnight t h]
  by_cases h24 : n_num t < 24
  · rw [if_pos h24]
    simp
  · rw [if_neg h24]
    by_cases h96 : n_num t < 96
    · rw [if_pos h96]
      rcases scan2D_fst dt "hourly"
          (if (("hourly" : String) == "hourly") = true then 24 else 96)
          (n_num t) (sortedYears dt) with hc | hc <;> rw [hc] <;> simp
    · rw [if_neg h96]
      rcases scan2D_fst dt "15 minutes"
          (if (("15 minutes" : String) == "hourly") = true then 24 else 96)
          (n_num t) (sortedYears dt) with hc | hc <;> rw [hc] <;> simp

theorem detect_format_fst_mem (t : Table) :
    (detect_format t).1 ∈
      ["1D hourly", "1D 15 minutes", "2D hourly", "2D 15 minutes",
        "Error – date parsing", "Error – no full 1‑D year",
        "Error – first column contains times",
        "Error – too few interval columns",
        "Error – no full 2‑D year"] := by
  cases hp : parseCol0 t.col0 with
  | none =>
    rw [detect_format_of_parse_fail hp]
    simp
  | some dt =>
    rw [detect_format_of_parse hp]
    cases ht : hasTimes dt with
    | true =>
      rw [detectParsed_1D t ht]
      rcases scan1D_fst_mem dt (sortedYears dt) with h | h | h <;> rw [h] <;> simp
    | false =>
      rw [detectParsed_2D t ht]
      have hmem := detect2D_fst_mem dt t ht
      simp only [List.mem_cons, List.not_mem_nil, or_false] at hmem ⊢
      tauto

theorem tC2_parse : parseCol0 tC2.col0 = some dtC2 := parseCol0_map_some dtC2

theorem dtC2_hasTimes : hasTimes dtC2 = true := by
  rw [hasTimes, dtC2, show (8784 : Nat) = 8783 + 1 from rfl, any_replicate_succ]
  decide

theorem dtC2_years : sortedYears dtC2 = [2023] := by
  rw [sortedYears, dtC2, List.map_replicate,
    show (8784 : Nat) = 8783 + 1 from rfl, dedupYears_replicate_succ]
  decide

theorem dtC2_rows_h : rowsHourly dtC2 2023 = 8784 := by
  rw [rowsHourly, dtC2, countP_replicate]
  decide

theorem tC3_parse : parseCol0 tC3.col0 = some dtC3 := parseCol0_map_some dtC3

theorem dtC3_hasTimes : hasTimes dtC3 = true := by
  rw [hasTimes, dtC3, List.any_append,
    show (5 : Nat) = 4 + 1 from rfl, any_replicate_succ]
  decide

theorem dtC3_years : sortedYears dtC3 = [2023, 2024] := by
  rw [sortedYears, dtC3, List.map_append, List.map_replicate, List.map_replicate,
    show (5 : Nat) = 4 + 1 from rfl,
    dedupYears_replicate_append _ _ _
      (by intro hmem
          rw [List.mem_replicate] at hmem
          exact absurd hmem.2 (by decide)),
    show (8784 : Nat) = 8783 + 1 from rfl, dedupYears_replicate_succ]
  decide

theorem dtC3_rows_h_2023 : rowsHourly dtC3 2023 = 5 := by
  rw [rowsHourly, dtC3, List.countP_append, countP_replicate, countP_replicate]
  decide

theorem dtC3_rows_q_2023 : rows15m dtC3 2023 = 5 := by
  rw [rows15m, dtC3, List.countP_append, countP_replicate, countP_replicate]
  decide

theorem dtC3_rows_h_2024 : rowsHourly dtC3 2024 = 8784 := by
  rw [rowsHourly, dtC3, List.countP_append, countP_replicate, countP_replicate]
  decide

theorem tC1_parse : parseCol0 tC1.col0 = some dtC1 := parseCol0_map_some dtC1

theorem dtC1_hasTimes : hasTimes dtC1 = true := by
  rw [hasTimes, dtC1, show (35136 : Nat) = 35135 + 1 from rfl, any_replicate_succ]
  decide

theorem dtC1_years : sortedYears dtC1 = [2024] := by
  rw [sortedYears, dtC1, List.map_replicate,
    show (35136 : Nat) = 35135 + 1 from rfl, dedupYears_replicate_succ]
  decide

theorem dtC1_rows_h : rowsHourly dtC1 2024 = 0 := by
  rw [rowsHourly, dtC1, countP_replicate]
  decide

theorem dtC1_rows_q : rows15m dtC1 2024 = 35136 := by
  rw [rows15m, dtC1, countP_replicate]
  decide

theorem tC1w_parse : parseCol0 tC1w.col0 = some dtC1w := parseCol0_map_some dtC1w

theorem dtC1w_hasTimes : hasTimes dtC1w = true := by
  rw [hasTimes, dtC1w, show (35136 : Nat) = 35135 + 1 from rfl, any_replicate_succ]
  decide

theorem dtC1w_years : sortedYears dtC1w = [2024] := by
  rw [sortedYears, dtC1w, List.map_replicate,
    show (35136 : Nat) = 35135 + 1 from rfl, dedupYears_replicate_succ]
  decide

theorem dtC1w_rows_h : rowsHourly dtC1w 2024 = 35136 := by
  rw [rowsHourly, dtC1w, countP_replicate]
  decide

theorem dtC1w_rows_q : rows15m dtC1w 2024 = 35136 := by
  rw [rows15m, dtC1w, countP_replicate]
  decide

theorem tC6_parse : parseCol0 tC6.col0 = some dtC6 := parseCol0_map_some dtC6

theorem dtC6_hasTimes : hasTimes dtC6 = true := by
  rw [hasTimes, dtC6, show (8759 : Nat) = 8758 + 1 from rfl, any_replicate_succ]
  decide

theorem dtC6_years : sortedYears dtC6 = [2023] := by
  rw [sortedYears, dtC6, List.map_replicate,
    show (8759 : Nat) = 8758 + 1 from rfl, dedupYears_replicate_succ]
  decide

theorem dtC6_rows_h : rowsHourly dtC6 2023 = 8759 := by
  rw [rowsHourly, dtC6, countP_replicate]
  decide

/-! ### Claims -/

/-- C1 counterexample: `tC1` is a 35136-row table of 15-minute-window
timestamps of 2024 on which classification succeeds, yet the returned label
is "1D 15 minutes" — not one of the four strings the claim names (the claim
writes "1D 15-minute"). -/
theorem c1_counterexample :
    detect_format tC1 =
      ("1D 15 minutes", "35136 rows for 2024. Expected 35136 rows starting 00:15.") ∧
    ("1D 15 minutes" ∉ ["1D hourly", "1D 15-minute", "2D hourly", "2D 15-minute"]) ∧
    ("1D 15 minutes" ∉ errorLabels) := by
  refine ⟨?_, by decide, by decide⟩
  rw [detect_format_of_parse tC1_parse, detectParsed_1D tC1 dtC1_hasTimes, dtC1_years,
    scan1D_cons_15m dtC1 2024 [] (by rw [dtC1_rows_h]; decide) (by rw [dtC1_rows_q]; decide),
    dtC1_rows_q]
  decide

/-- C1 (amended): every label of a successful classification is one of
"1D hourly", "1D 15 minutes", "2D hourly", "2D 15 minutes"; and every table
whose shifted 15-minute window of some scanned year holds 35040 or 35136
rows (as a table advancing by 15 minutes from 00:15 Jan 1 does), while its
hourly window count is unacceptable, is labelled "1D 15 minutes". -/
theorem c1_amended :
    (∀ t : Table, (detect_format t).1 ∉ errorLabels →
      (detect_format t).1 ∈ successLabels) ∧
    (∀ (t : Table) (dt : List DateTime) (y : Nat),
      parseCol0 t.col0 = some dt → hasTimes dt = true →
      (sortedYears dt = [y] ∨ sortedYears dt = [y, y + 1]) →
      rowsHourly dt y ∉ ACCEPTABLE_HOURLY →
      (rows15m dt y = 35040 ∨ rows15m dt y = 35136) →
      (detect_format t).1 = "1D 15 minutes") := by
  constructor
  · intro t hstart
    have hmem := detect_format_fst_mem t
    simp only [List.mem_cons, List.not_mem_nil, or_false] at hmem
    rcases hmem with h | h | h | h | h | h | h | h | h
    · rw [h]; decide
    · rw [h]; decide
    · rw [h]; decide
    · rw [h]; decide
    all_goals rw [h] at hstart
    all_goals exact absurd (by decide) hstart
  · intro t dt y hp ht hys hh hq
    have hq' : rows15m dt y ∈ ACCEPTABLE_15M := by
      rcases hq with h | h <;> rw [h] <;> decide
    rw [detect_format_of_parse hp, detectParsed_1D t ht]
    rcases hys with h | h <;> rw [h]
    · rw [scan1D_cons_15m dt y [] hh hq']
    · rw [scan1D_cons_15m dt y [y + 1] hh hq']

/-- C1 amended witness: the 35136-row 15-minute table `tC1w` succeeds with
label "1D 15 minutes", which is among the success labels. -/
theorem c1_amended_witness :
    (detect_format tC1w).1 ∈ successLabels ∧
    (detect_format tC1w).1 = "1D 15 minutes" := by
  have h2 : (detect_format tC1w).1 = "1D 15 minutes" :=
    c1_amended.2 tC1w dtC1w 2024 tC1w_parse dtC1w_hasTimes (Or.inl dtC1w_years)
      (by rw [dtC1w_rows_h]; decide) (Or.inr dtC1w_rows_q)
  exact ⟨c1_amended.1 tC1w (by rw [h2]; decide), h2⟩

/-- C2 counterexample: the non-leap year 2023 has hourly full count 8760,
yet a table whose shifted hourly window for 2023 holds 8784 rows — a count
matching only the leap-year full count — is accepted as "1D hourly": the
acceptance set is the leap-independent union, not the per-leap-status
pair the claim states. -/
theorem c2_counterexample :
    isleap 2023 = false ∧ rowsHourly dtC2 2023 = 8784 ∧
    (8784 : Nat) ≠ HOUR_ROWS_NONLEAP ∧ (8784 : Nat) ≠ HOUR_ROWS_NONLEAP - 1 ∧
    detect_format tC2 =
      ("1D hourly", "8784 rows for 2023. Expected 8760 rows starting 01:00.") := by
  refine ⟨by decide, dtC2_rows_h, by decide, by decide, ?_⟩
  rw [detect_format_of_parse tC2_parse, detectParsed_1D tC2 dtC2_hasTimes, dtC2_years,
    scan1D_cons_hourly dtC2 2023 [] (by rw [dtC2_rows_h]; decide), dtC2_rows_h]
  decide

/-- C2 (amended): in the 1-D path a year is accepted for hourly exactly
when its shifted hourly window count lies in the fixed set
{8760, 8759, 8784, 8783}, and for 15-minute exactly when its 15-minute
window count lies in {35040, 35039, 35136, 35135} — regardless of the leap
status of that year; an unaccepted year is skipped. -/
theorem c2_amended (dt : List DateTime) (y : Nat) (ys : List Nat) :
    ACCEPTABLE_HOURLY = [8760, 8759, 8784, 8783] ∧
    ACCEPTABLE_15M = [35040, 35039, 35136, 35135] ∧
    (rowsHourly dt y ∈ ACCEPTABLE_HOURLY → (scan1D dt (y :: ys)).1 = "1D hourly") ∧
    (rowsHourly dt y ∉ ACCEPTABLE_HOURLY → rows15m dt y ∈ ACCEPTABLE_15M →
      (scan1D dt (y :: ys)).1 = "1D 15 minutes") ∧
    (rowsHourly dt y ∉ ACCEPTABLE_HOURLY → rows15m dt y ∉ ACCEPTABLE_15M →
      scan1D dt (y :: ys) = scan1D dt ys) := by
  refine ⟨by decide, by decide, ?_, ?_, ?_⟩
  · intro hh
    rw [scan1D_cons_hourly dt y ys hh]
  · intro hh hq
    rw [scan1D_cons_15m dt y ys hh hq]
  · exact scan1D_cons_skip dt y ys

/-- C2 amended witness: 8784 rows in the 2023 hourly window are accepted
as hourly, and 35136 rows in the 2024 15-minute window (with hourly count
0) are accepted as 15-minute. -/
theorem c2_amended_witness :
    (scan1D dtC2 [2023]).1 = "1D hourly" ∧
    (scan1D dtC1 [2024]).1 = "1D 15 minutes" := by
  constructor
  · exact (c2_amended dtC2 2023 []).2.2.1 (by rw [dtC2_rows_h]; decide)
  · exact (c2_amended dtC1 2024 []).2.2.2.1
      (by rw [dtC1_rows_h]; decide) (by rw [dtC1_rows_q]; decide)

/-- C3: the scanned year list is always strictly ascending, and for a table
spanning two years where the first year matches no window but the second is
a complete hourly leap year (8784 rows), classification succeeds with the
second year, whose number appears in the detail. -/
theorem c3_ascending_first_wins (t : Table) (dt : List DateTime) (y1 y2 : Nat)
    (hp : parseCol0 t.col0 = some dt) (ht : hasTimes dt = true)
    (hys : sortedYears dt = [y1, y2])
    (h1h : rowsHourly dt y1 ∉ ACCEPTABLE_HOURLY)
    (h1q : rows15m dt y1 ∉ ACCEPTABLE_15M)
    (hleap : isleap y2 = true)
    (h2 : rowsHourly dt y2 = 8784) :
    (∀ dt' : List DateTime, (sortedYears dt').Pairwise (· < ·)) ∧
    detect_format t =
      ("1D hourly",
        "8784 rows for " ++ toString y2 ++ ". Expected 8784 rows starting 01:00.") := by
  refine ⟨fun dt' => sortedYears_pairwise_lt dt', ?_⟩
  rw [detect_format_of_parse hp, detectParsed_1D t ht, hys,
    scan1D_cons_skip dt y1 [y2] h1h h1q,
    scan1D_cons_hourly dt y2 [] (by rw [h2]; decide), h2, if_pos hleap,
    if_neg (by decide : ¬((8784 : Nat) = HOUR_ROWS_LEAP - 1)),
    show toString (8784 : Nat) = "8784" from rfl,
    show toString HOUR_ROWS_LEAP = "8784" from rfl,
    String.append_empty,
    show ("8784" : String) ++ " rows for " = "8784 rows for " from rfl,
    String.append_assoc ("8784 rows for " ++ toString y2) ". Expected " "8784",
    show (". Expected " : String) ++ "8784" = ". Expected 8784" from rfl,
    String.append_assoc ("8784 rows for " ++ toString y2) ". Expected 8784"
      " rows starting 01:00.",
    show (". Expected 8784" : String) ++ " rows starting 01:00." =
      ". Expected 8784 rows starting 01:00." from rfl]

/-- C3 witness: five stray 2023 rows followed by a complete 2024 hourly
window select 2024 and name it. -/
theorem c3_ascending_first_wins_witness :
    (∀ dt' : List DateTime, (sortedYears dt').Pairwise (· < ·)) ∧
    detect_format tC3 =
      ("1D hourly", "8784 rows for 2024. Expected 8784 rows starting 01:00.") := by
  have h := c3_ascending_first_wins tC3 dtC3 2023 2024 tC3_parse dtC3_hasTimes
    dtC3_years (by rw [dtC3_rows_h_2023]; decide) (by rw [dtC3_rows_q_2023]; decide)
    (by decide) dtC3_rows_h_2024
  refine ⟨h.1, ?_⟩
  rw [h.2]
  decide

/-- C4: a single unparsable cell in column 0 makes the whole classification
fail with the date-parsing error, whatever the rest of the table holds. -/
theorem c4_timestamp_parse_error (t : Table)
    (h : (none : Option DateTime) ∈ t.col0) :
    detect_format t =
      ("Error – date parsing",
        "Failed to parse valid dates/timestamps in the first column.") :=
  detect_format_of_parse_fail (parseCol0_none_of_mem h)

/-- C4 witness: a table with an unparsable first cell fails with the
date-parsing error. -/
theorem c4_timestamp_parse_error_witness :
    detect_format tC4 =
      ("Error – date parsing",
        "Failed to parse valid dates/timestamps in the first column.") :=
  c4_timestamp_parse_error tC4 (by decide)

/-- C5 counterexample: `tC5` holds the 365 consecutive midnight days of
2023 and exactly 96 numeric measurement columns, and classification
succeeds — but with the label "2D 15 minutes", not the "2D 15-minute"
the claim names. -/
theorem c5_counterexample :
    dtC5.length = 365 ∧
    (∀ d ∈ dtC5, d.hour = 0 ∧ d.minute = 0) ∧
    (dtC5.zip dtC5.tail).all (fun p => p.2 == nextDay p.1) = true ∧
    n_num tC5 = 96 ∧
    detect_format tC5 =
      ("2D 15 minutes", "365 date‑rows for 2023. Using first 96 of 96 numeric columns.") ∧
    "2D 15 minutes" ≠ "2D 15-minute" := by
  refine ⟨by decide, by decide, by decide, by decide, by decide, by decide⟩

/-- C5 (amended): the scanned year list is strictly ascending and the 2-D
path accepts the first year with at least 365 rows; a single-year midnight
table with 365 or 366 rows and exactly 24 numeric columns is labelled
"2D hourly", and with exactly 96 numeric columns "2D 15 minutes" (the claim
wrote "2D 15-minute"). -/
theorem c5_amended :
    (∀ dt : List DateTime, (sortedYears dt).Pairwise (· < ·)) ∧
    (∀ (t : Table) (dt : List DateTime) (y : Nat),
      parseCol0 t.col0 = some dt → hasTimes dt = false →
      sortedYears dt = [y] → 365 ≤ rowsYear dt y →
      (n_num t = 24 → (detect_format t).1 = "2D hourly") ∧
      (n_num t = 96 → (detect_format t).1 = "2D 15 minutes")) := by
  refine ⟨fun dt => sortedYears_pairwise_lt dt, ?_⟩
  intro t dt y hp hmid hys hrows
  constructor
  · intro h24
    rw [detect_format_of_parse hp, detectParsed_2D t hmid, detect2D_midnight t hmid,
      if_neg (show ¬n_num t < 24 by omega),
      if_pos (show n_num t < 96 by omega),
      if_pos (show ((("hourly" : String) == "hourly") = true) by decide),
      hys, scan2D_cons_accept dt "hourly" 24 (n_num t) y [] hrows]
    show ("2D " ++ "hourly" : String) = "2D hourly"
    decide
  · intro h96
    rw [detect_format_of_parse hp, detectParsed_2D t hmid, detect2D_midnight t hmid,
      if_neg (show ¬n_num t < 24 by omega),
      if_neg (show ¬n_num t < 96 by omega),
      if_neg (show ¬((("15 minutes" : String) == "hourly") = true) by decide),
      hys, scan2D_cons_accept dt "15 minutes" 96 (n_num t) y [] hrows]
    show ("2D " ++ "15 minutes" : String) = "2D 15 minutes"
    decide

/-- C5 amended witness: the 366 days of 2024 with 24 numeric columns are
labelled "2D hourly". -/
theorem c5_amended_witness :
    (sortedYears dtC5w).Pairwise (· < ·) ∧ (detect_format tC5w).1 = "2D hourly" := by
  refine ⟨c5_amended.1 dtC5w, ?_⟩
  exact (c5_amended.2 tC5w dtC5w 2024 (parseCol0_map_some dtC5w) (by decide) (by decide)
    (by decide)).1 (by decide)

/-- C6: a single-year 1-D table whose window count falls short of the full
count by exactly one (the omitted final row) still succeeds, and the detail
carries the note " (final 00:00 missing)" next to the year. -/
theorem c6_missing_final_row (t : Table) (dt : List DateTime) (y : Nat)
    (hp : parseCol0 t.col0 = some dt) (ht : hasTimes dt = true)
    (hys : sortedYears dt = [y]) :
    (rowsHourly dt y = (if isleap y then HOUR_ROWS_LEAP else HOUR_ROWS_NONLEAP) - 1 →
      detect_format t =
        ("1D hourly",
          toString (rowsHourly dt y) ++ " rows for " ++ toString y ++
            " (final 00:00 missing)" ++ ". Expected " ++
            toString (if isleap y then HOUR_ROWS_LEAP else HOUR_ROWS_NONLEAP) ++
            " rows starting 01:00.")) ∧
    (rowsHourly dt y ∉ ACCEPTABLE_HOURLY →
      rows15m dt y = (if isleap y then Q15_ROWS_LEAP else Q15_ROWS_NONLEAP) - 1 →
      detect_format t =
        ("1D 15 minutes",
          toString (rows15m dt y) ++ " rows for " ++ toString y ++
            " (final 00:00 missing)" ++ ". Expected " ++
            toString (if isleap y then Q15_ROWS_LEAP else Q15_ROWS_NONLEAP) ++
            " rows starting 00:15.")) := by
  constructor
  · intro hr
    have hmem : rowsHourly dt y ∈ ACCEPTABLE_HOURLY := by
      cases hl : isleap y <;> simp [hl] at hr <;> rw [hr] <;> decide
    rw [detect_format_of_parse hp, detectParsed_1D t ht, hys,
      scan1D_cons_hourly dt y [] hmem, if_pos hr]
  · intro hh hq
    have hmem : rows15m dt y ∈ ACCEPTABLE_15M := by
      cases hl : isleap y <;> simp [hl] at hq <;> rw [hq] <;> decide
    rw [detect_format_of_parse hp, detectParsed_1D t ht, hys,
      scan1D_cons_15m dt y [] hh hmem, if_pos hq]

/-- C6 witness: 8759 hourly rows of the non-leap year 2023 (8760 minus the
final midnight row) succeed with the missing-final-row note. -/
theorem c6_missing_final_row_witness :
    detect_format tC6 =
      ("1D hourly",
        "8759 rows for 2023 (final 00:00 missing). Expected 8760 rows starting 01:00.") := by
  have h := (c6_missing_final_row tC6 dtC6 2023 tC6_parse dtC6_hasTimes dtC6_years).1
    (by rw [dtC6_rows_h]; decide)
  rw [h, dtC6_rows_h]
  decide

/-- C7: on the 2-D path (every timestamp midnight) a table with fewer than
24 numeric measurement columns fails with the too-few-interval-columns
error, whose detail reports the observed count against the expected 24. -/
theorem c7_insufficient_columns (t : Table) (dt : List DateTime)
    (hp : parseCol0 t.col0 = some dt) (hmid : hasTimes dt = false)
    (hn : n_num t < 24) :
    detect_format t =
      ("Error – too few interval columns", explain (n_num t) ["≥24"]) := by
  rw [detect_format_of_parse hp, detectParsed_2D t hmid, detect2D_midnight t hmid,
    if_pos hn]

/-- C7 witness: a midnight table with exactly 23 numeric columns fails
with the too-few-interval-columns error. -/
theorem c7_insufficient_columns_witness :
    n_num tC7 = 23 ∧
    detect_format tC7 =
      ("Error – too few interval columns", "Found **23**, expected **≥24**.") := by
  refine ⟨by decide, ?_⟩
  have h := c7_insufficient_columns tC7 [⟨2023, 5, 4, 0, 0⟩] (by decide) (by decide)
    (by decide)
  rw [h]
  decide

/-- C8: once column 0 has parsed, the label "first column contains times"
is unreachable: the 2-D path is entered only with `hasTimes` false, and
then the re-verification condition of lines 122-126 is already false. -/
theorem c8_nonmidnight_unreachable (t : Table) (dt : List DateTime)
    (hp : parseCol0 t.col0 = some dt) :
    (detect_format t).1 ≠ "Error – first column contains times" ∧
    (hasTimes dt = false →
      (dt.any (fun d => d.hour != 0) || dt.any (fun d => d.minute != 0)) = false) := by
  constructor
  · rw [detect_format_of_parse hp]
    cases ht : hasTimes dt with
    | true =>
      rw [detectParsed_1D t ht]
      rcases scan1D_fst_mem dt (sortedYears dt) with h | h | h <;> rw [h] <;> decide
    | false =>
      rw [detectParsed_2D t ht]
      have hmem := detect2D_fst_mem dt t ht
      simp only [List.mem_cons, List.not_mem_nil, or_false] at hmem
      rcases hmem with h | h | h | h <;> rw [h] <;> decide
  · exact midnight_check_false dt

/-- C8 witness: a parsable midnight table never yields the
first-column-contains-times error. -/
theorem c8_nonmidnight_unreachable_witness :
    (detect_format tC8).1 ≠ "Error – first column contains times" :=
  (c8_nonmidnight_unreachable tC8 [⟨2023, 1, 1, 0, 0⟩] (by decide)).1

/-- C9: on every table with at least one row and at least two columns the
detector returns an ordinary (label, detail) pair whose label is a success
label or one of the five error labels — in the embedding every anomaly is a
returned value, never an exception. -/
theorem c9_no_exceptions (t : Table) (_h1 : t.col0 ≠ []) (_h2 : t.numericCols ≠ []) :
    (detect_format t).1 ∈ successLabels ∨ (detect_format t).1 ∈ errorLabels := by
  have hmem := detect_format_fst_mem t
  simp only [List.mem_cons, List.not_mem_nil, or_false] at hmem
  rcases hmem with h | h | h | h | h | h | h | h | h <;> rw [h]
  · left; decide
  · left; decide
  · left; decide
  · left; decide
  · right; decide
  · right; decide
  · right; decide
  · right; decide
  · right; decide

/-- C9 witness: a one-row two-column table classifies to a label of one of
the two kinds. -/
theorem c9_no_exceptions_witness :
    (detect_format tC9).1 ∈ successLabels ∨ (detect_format tC9).1 ∈ errorLabels :=
  c9_no_exceptions tC9 (by decide) (by decide)

/-- C10: the detector is a pure function of its input value: equal tables
classify identically.  The Python function rebinds a cleaned copy on line
79 and never mutates its argument, which the value-based embedding renders
structural — the input table is left unchanged by a call. -/
theorem c10_deterministic (t1 t2 : Table) (h : t1 = t2) :
    detect_format t1 = detect_format t2 := by
  rw [h]

/-- C10 witness: a repeated call on the same table yields the same pair. -/
theorem c10_deterministic_witness :
    detect_format tC10 = detect_format tC10 :=
  c10_deterministic tC10 tC10 rfl
